import Mathlib

/-!
Shallow embedding of `src/esptool.py` (interactive ESP32 MicroPython
flashing tool): the menu/selection engine, the confirmation gate, the
firmware inspector's transcript parser, the firmware catalog, the flash
orchestrator's command construction and retry policy, and the session
controller's step sequence and process exit codes.

Python string primitives (`in`, `.lower()`, `.strip()`, `.rstrip(')')`,
`.split(sep)`, `int(...)`) are embedded as executable functions on
`List Char` so that every definition evaluates inside the kernel.
-/

namespace ESPTool

/-- `needle in hay`: Python's substring test (`'x' in s`). -/
def strContains (hay needle : String) : Bool :=
  decide (needle.data <:+: hay.data)

/-- Python `str.lower()` (ASCII case folding, as in the source's inputs). -/
def strLower (s : String) : String :=
  String.mk (s.data.map Char.toLower)

/-- Python `str.strip()`: drop leading and trailing whitespace. -/
def strTrim (s : String) : String :=
  String.mk (((s.data.dropWhile Char.isWhitespace).reverse.dropWhile
    Char.isWhitespace).reverse)

/-- Python `str.rstrip(')')`: drop all trailing `')'` characters. -/
def rstripParen (s : String) : String :=
  String.mk ((s.data.reverse.dropWhile (fun c => c = ')')).reverse)

/-- Split a character list at every occurrence of a single-character
separator, keeping empty chunks — Python `str.split(sep)` for a one-char
`sep`. -/
def splitOnChar (sep : Char) : List Char → List (List Char)
  | [] => [[]]
  | c :: rest =>
    match splitOnChar sep rest with
    | [] => [[c]]
    | cur :: parts =>
      if c = sep then [] :: cur :: parts else (c :: cur) :: parts

/-- Python `str.split('\n')`, as a list of lines. -/
def splitLines (s : String) : List String :=
  (splitOnChar (Char.ofNat 10) s.data).map String.mk

/-- The part of `l` before the first occurrence of `sep`, and the part
after it (`none` when `sep` does not occur). -/
def splitFirstOn (sep : List Char) : List Char → Option (List Char × List Char)
  | [] => if sep = [] then some ([], []) else none
  | c :: rest =>
    if sep.isPrefixOf (c :: rest) then some ([], (c :: rest).drop sep.length)
    else
      match splitFirstOn sep rest with
      | none => none
      | some (a, b) => some (c :: a, b)

/-- Python `s.split(sep)[0]`: everything before the first occurrence of
`sep`, or the whole string when `sep` does not occur. -/
def pySplitHead (sep : String) (s : String) : String :=
  match splitFirstOn sep.data s.data with
  | none => s
  | some (a, _) => String.mk a

/-- Python `s.split(sep)[1]`: the chunk between the first and second
occurrences of `sep` (Python would raise `IndexError` when `sep` does not
occur; the source only applies this to strings it built with `sep`
present, and we return `""` there). -/
def pySplitSecond (sep : String) (s : String) : String :=
  match splitFirstOn sep.data s.data with
  | none => ""
  | some (_, b) =>
    match splitFirstOn sep.data b with
    | none => String.mk b
    | some (a, _) => String.mk a

/-- Digits-only parse of a nonempty character list. -/
def digitsToNat? (l : List Char) : Option Nat :=
  if l ≠ [] ∧ l.all Char.isDigit then
    some (l.foldl (fun acc c => acc * 10 + (c.toNat - 48)) 0)
  else none

/-- Python `int(s)` on an already-stripped string, as an `Option`:
optional sign followed by decimal digits. -/
def pyToInt? (s : String) : Option Int :=
  match s.data with
  | '-' :: rest => (digitsToNat? rest).map (fun n => -(n : Int))
  | '+' :: rest => (digitsToNat? rest).map (fun n => (n : Int))
  | l => (digitsToNat? l).map (fun n => (n : Int))

/-! ## Menu selector (`MenuSelector.display_menu`, lines 43-115)

Raw-keystroke mode reads an escape sequence or single character; the
line-based fallback parses a numbered choice.  Navigation wraps with
Python's `%`: `(i - 1) % n` and `(i + 1) % n`. -/

/-- Python `(i - 1) % n` on a nonnegative `i` (wraps `0` to `n - 1`). -/
def menuUp (n i : Nat) : Nat := (i + n - 1) % n

/-- Python `(i + 1) % n`. -/
def menuDown (n i : Nat) : Nat := (i + 1) % n

/-- Outcome of one menu loop: a selected index, or `sys.exit(code)`. -/
inductive MenuResult where
  | selected (i : Nat)
  | exited (code : Nat)
  deriving DecidableEq, Repr

/-- Raw-keystroke mode of `display_menu` (lines 85-93), driven by the
sequence of keystroke strings read from the terminal (`"\x1b[A"`,
`"\x1b[B"`, `"\r"`, `"\n"`, `"q"`, `"\x03"`, or anything else, which the
loop ignores and redraws).  `none` when the input list runs out (the real
loop would block reading). -/
def runRawMenu (numItems : Nat) (index : Nat) : List String → Option MenuResult
  | [] => none
  | ch :: rest =>
    if ch = "\x1b[A" then runRawMenu numItems (menuUp numItems index) rest
    else if ch = "\x1b[B" then runRawMenu numItems (menuDown numItems index) rest
    else if ch = "\r" ∨ ch = "\n" then some (.selected index)
    else if ch = "q" ∨ ch = "\x03" then some (.exited 0)
    else runRawMenu numItems index rest

/-- One line of input in fallback mode: a typed line or a
`KeyboardInterrupt` raised at the prompt. -/
inductive LineInput where
  | line (s : String)
  | interrupt
  deriving DecidableEq, Repr

/-- Numbered-fallback mode of `display_menu` (lines 101-115): `q`
(case-insensitive, after `strip()`) exits 0, a `KeyboardInterrupt` exits 0,
an integer `n` with `1 ≤ n ≤ numItems` returns `n - 1`, anything else
re-prompts. -/
def runFallbackMenu (numItems : Nat) : List LineInput → Option MenuResult
  | [] => none
  | .interrupt :: _ => some (.exited 0)
  | .line s :: rest =>
    if strLower (strTrim s) = "q" then some (.exited 0)
    else
      match pyToInt? (strTrim s) with
      | none => runFallbackMenu numItems rest
      | some n =>
        if 0 ≤ n - 1 ∧ n - 1 < (numItems : Int) then some (.selected (n - 1).toNat)
        else runFallbackMenu numItems rest

/-! ## Confirmation gate (`confirm_firmware_overwrite`, lines 350-454)

A two-option panel over the same input handling; `choice == 0` returns
`True` (proceed), `choice == 1` returns `False` (keep). -/

/-- Outcome of the confirmation gate. -/
inductive ConfirmResult where
  | proceed
  | keep
  | exited (code : Nat)
  deriving DecidableEq, Repr

/-- Raw-keystroke mode of the gate (lines 419-431 and 450-454): arrows
navigate mod 2 and redraw the panel, Enter freezes `choice = current_index`
and returns proceed/keep, `q`/Ctrl-C exits 0, other keys redraw. -/
def runConfirmRaw (index : Nat) : List String → Option ConfirmResult
  | [] => none
  | ch :: rest =>
    if ch = "\x1b[A" then runConfirmRaw (menuUp 2 index) rest
    else if ch = "\x1b[B" then runConfirmRaw (menuDown 2 index) rest
    else if ch = "\r" ∨ ch = "\n" then
      if index = 0 then some .proceed
      else if index = 1 then some .keep
      else runConfirmRaw index rest
    else if ch = "q" ∨ ch = "\x03" then some (.exited 0)
    else runConfirmRaw index rest

/-- Fallback mode of the gate (lines 433-454): `q` or interrupt exits 0,
an integer with `choice = int(input) - 1` in `[0, 2)` decides (`0`
proceeds, `1` keeps), anything else re-prompts. -/
def runConfirmFallback : List LineInput → Option ConfirmResult
  | [] => none
  | .interrupt :: _ => some (.exited 0)
  | .line s :: rest =>
    if strLower (strTrim s) = "q" then some (.exited 0)
    else
      match pyToInt? (strTrim s) with
      | none => runConfirmFallback rest
      | some n =>
        if n - 1 < 0 ∨ 2 ≤ n - 1 then runConfirmFallback rest
        else if n - 1 = 0 then some .proceed
        else some .keep

/-! ## Firmware inspector (`detect_current_firmware`, lines 271-348) -/

/-- The descriptor built by the inspector (the `firmware_info` dict). -/
structure FirmwareInfo where
  is_micropython : Bool
  version : String
  implementation : String
  platform : String
  raw_output : String
  deriving DecidableEq, Repr

/-- The dict as initialized at lines 295-301, with the accumulated raw
transcript already in place. -/
def initFirmwareInfo (raw : String) : FirmwareInfo :=
  { is_micropython := false, version := "Unknown", implementation := "Unknown",
    platform := "Unknown", raw_output := raw }

/-- Per-line extraction inside the MicroPython branch (lines 319-325). -/
def parseLine (info : FirmwareInfo) (line : String) : FirmwareInfo :=
  if strContains (strLower line) "micropython" && strContains (strLower line) "version" then
    { info with version := strTrim line }
  else if strContains (strLower line) "implementation" then
    { info with implementation := strTrim line }
  else if strContains (strLower line) "platform" then
    { info with platform := strTrim line }
  else info

/-- Transcript classification (lines 311-337): MicroPython signature, else
ESP-IDF/other, else Arduino, else unknown. -/
def parse_firmware (raw : String) : FirmwareInfo :=
  if strContains (strLower raw) "micropython" then
    (splitLines raw).foldl parseLine
      { initFirmwareInfo raw with is_micropython := true }
  else if strContains (strLower raw) "esp32" || strContains (strLower raw) "esp-idf" then
    { initFirmwareInfo raw with version := "ESP-IDF or other ESP32 firmware" }
  else if strContains (strLower raw) "arduino" then
    { initFirmwareInfo raw with version := "Arduino firmware" }
  else
    { initFirmwareInfo raw with version := "Unknown firmware or no response" }

/-- `detect_current_firmware`, with the serial transport abstracted as
either an accumulated transcript or an exception message `e` (lines
340-348: the `except` branch builds a fixed descriptor whose raw output is
`f'Error: {e}'`). -/
def detect_current_firmware (transport : Except String String) : FirmwareInfo :=
  match transport with
  | .ok raw => parse_firmware raw
  | .error e =>
    { is_micropython := false, version := "Detection failed",
      implementation := "Unknown", platform := "Unknown",
      raw_output := "Error: " ++ e }

/-! ## Device prober (`detect_esp32_devices`, lines 179-269) -/

def supported_models : List String := ["esp32c3", "esp32s3", "esp32c6", "esp32"]

/-- The display label built for an accepted port from the `chip-id` output
(lines 206-216). -/
def probe_label (port output : String) : String :=
  if strContains (strLower output) "esp32-c3" || strContains (strLower output) "esp32c3" then
    port ++ " (ESP32-C3)"
  else if strContains (strLower output) "esp32-s3" || strContains (strLower output) "esp32s3" then
    port ++ " (ESP32-S3)"
  else if strContains (strLower output) "esp32-c6" || strContains (strLower output) "esp32c6" then
    port ++ " (ESP32-C6)"
  else if strContains (strLower output) "esp32" &&
      !strContains (strLower output) "esp32-c3" &&
      !strContains (strLower output) "esp32-s3" &&
      !strContains (strLower output) "esp32-c6" then
    port ++ " (ESP32)"
  else
    port ++ " (ESP32 - Unknown variant)"

/-- Variant classification of the selected label's parenthesized part
(lines 246-253). -/
def classify_model_part (mp : String) : String :=
  if strContains (strLower mp) "esp32-c3" || strContains (strLower mp) "esp32c3" then "esp32c3"
  else if strContains (strLower mp) "esp32-s3" || strContains (strLower mp) "esp32s3" then "esp32s3"
  else if strContains (strLower mp) "esp32-c6" || strContains (strLower mp) "esp32c6" then "esp32c6"
  else "esp32"

/-- `selected_device.split(' (')[1].rstrip(')')` (line 245). -/
def model_part_of (label : String) : String :=
  rstripParen (pySplitSecond " (" label)

/-- How the selected device entry was produced: picking a probed label
from the menu, or the manual-entry option (lines 237-253). -/
inductive DeviceSelection where
  | auto (label : String)
  | manual (port model_input : String)
  deriving DecidableEq, Repr

/-- `self.device_model` after selection: classified from the label on the
auto path, `input(...).strip().lower()` on the manual path. -/
def device_model_of : DeviceSelection → String
  | .auto label => classify_model_part (model_part_of label)
  | .manual _ m => strLower (strTrim m)

/-- The supported-set check at lines 257-259. -/
def device_model_supported (sel : DeviceSelection) : Bool :=
  supported_models.contains (device_model_of sel)

/-- Inputs to the device step: whether any port passed the bounded-time
`chip-id` probe (line 222: empty `esp32_ports` fails the step), and the
selection made in the device menu. -/
structure DeviceEnv where
  anyAccepted : Bool
  sel : DeviceSelection
  deriving DecidableEq, Repr

/-- Overall result of `detect_esp32_devices`: `False` when no port was
accepted or the selected model is unsupported (lines 222-225, 257-267). -/
def detect_esp32_devices (env : DeviceEnv) : Bool :=
  env.anyAccepted && device_model_supported env.sel

/-! ## Firmware catalog (`get_firmware_versions`, lines 456-569) -/

/-- The per-variant release menu entries (lines 464-487). -/
def firmware_option_names (model : String) : List String :=
  if model = "esp32c3" then
    ["ESP32_GENERIC_C3-20250911-v1.26.1.bin (Latest Stable)",
     "ESP32_GENERIC_C3-20241220-v1.26.1.bin (Previous Stable)",
     "ESP32_GENERIC_C3-20250911-v1.26.1.bin (Development)"]
  else if model = "esp32s3" then
    ["ESP32_GENERIC_S3-20250911-v1.26.1.bin (Latest Stable)",
     "ESP32_GENERIC_S3-20241220-v1.26.1.bin (Previous Stable)",
     "ESP32_GENERIC_S3-20250911-v1.26.1.bin (Development)"]
  else if model = "esp32c6" then
    ["ESP32_GENERIC_C6-20250911-v1.26.1.bin (Latest Stable)",
     "ESP32_GENERIC_C6-20241220-v1.26.1.bin (Previous Stable)",
     "ESP32_GENERIC_C6-20250911-v1.26.1.bin (Development)"]
  else
    ["ESP32_GENERIC-20250911-v1.26.1.bin (Latest Stable)",
     "ESP32_GENERIC-20241220-v1.26.1.bin (Previous Stable)",
     "ESP32_GENERIC-20250911-v1.26.1.bin (Development)"]

/-- The release menu plus the local-file entry (line 490). -/
def firmware_options (model : String) : List String :=
  firmware_option_names model ++ ["📁 Use local firmware file"]

/-- `firmware_name = firmware_options[selected_index].split(' (')[0]`
(line 509). -/
def firmware_name_of (model : String) (selection : Nat) : String :=
  pySplitHead " (" ((firmware_options model).getD selection "")

/-- The primary download locator (lines 512-519: the same URL in every
branch). -/
def firmware_url (firmware_name : String) : String :=
  "https://micropython.org/resources/firmware/" ++ firmware_name

/-- The alternate download locator (line 539). -/
def alt_firmware_url (firmware_name : String) : String :=
  "https://github.com/micropython/micropython/releases/download/v1.26.1/" ++ firmware_name

/-- External outcomes the catalog step depends on: the menu selection, the
`*.bin` listing for the local-file path, the two HTTP fetch outcomes, the
`f'{model}*.bin'` listing used by the outer exception handler, and whether
an exception other than the two handled download failures escapes the
`try` body (only then does the outer handler at lines 557-569 run). -/
structure CatalogEnv where
  selection : Nat
  localBinFiles : List String
  localFileChoice : Nat
  primaryDownloadOk : Bool
  altDownloadOk : Bool
  variantPrefixedFiles : List String
  unexpectedException : Bool
  deriving DecidableEq, Repr

inductive CatalogResult where
  | ok (file : String)
  | fail
  deriving DecidableEq, Repr

/-- The body of the `try` block (lines 460-555): local-file path, or
download with one alternate-URL fallback; both downloads failing returns
failure directly (line 553), without touching the working directory. -/
def catalogBody (model : String) (env : CatalogEnv) : CatalogResult :=
  if env.selection = (firmware_options model).length - 1 then
    match env.localBinFiles with
    | [] => .fail
    | f :: fs => .ok ((f :: fs).getD env.localFileChoice f)
  else
    if env.primaryDownloadOk then .ok (firmware_name_of model env.selection)
    else if env.altDownloadOk then .ok (firmware_name_of model env.selection)
    else .fail

/-- The outer `except` handler (lines 557-569): use the first
`f'{model}*.bin'` file in the working directory, else fail. -/
def catalogRecovery (env : CatalogEnv) : CatalogResult :=
  match env.variantPrefixedFiles with
  | [] => .fail
  | f :: _ => .ok f

/-- `get_firmware_versions`: the recovery handler runs only when an
unexpected exception escapes the body. -/
def get_firmware_versions (model : String) (env : CatalogEnv) : CatalogResult :=
  if env.unexpectedException then catalogRecovery env
  else catalogBody model env

/-! ## Flash orchestrator (`flash_micropython`, lines 571-620) -/

def erase_cmd (device_model device_port : String) : List String :=
  ["esptool", "--chip", device_model, "--port", device_port, "erase-flash"]

/-- The first write-image invocation (lines 593-598). -/
def flash_cmd (device_model device_port firmware_file : String) : List String :=
  ["esptool", "--chip", device_model, "--port", device_port,
   "--baud", "460800", "write-flash", "-z", "0x0", firmware_file]

/-- The retry invocation: `flash_cmd[4] = '115200'` (line 606). -/
def flash_cmd_retry (device_model device_port firmware_file : String) : List String :=
  (flash_cmd device_model device_port firmware_file).set 4 "115200"

def erase_timeout : Nat := 30
def flash_first_timeout : Nat := 60
def flash_retry_timeout : Nat := 120

/-- Success structure of the flash step (lines 584-613): erase must
succeed; then the first write, or else the single retry. -/
def flash_micropython (eraseOk firstWriteOk retryWriteOk : Bool) : Bool :=
  if !eraseOk then false
  else if firstWriteOk then true
  else retryWriteOk

/-! ## Session controller (`run`, lines 661-707; `main`, lines 709-726) -/

inductive Step where
  | conda | device | inspect | confirm | selectFw | flash | test
  deriving DecidableEq, Repr

/-- External outcomes the session depends on, one per workflow step. -/
structure SessionEnv where
  condaOk : Bool
  device : DeviceEnv
  transport : Except String String
  confirmProceed : Bool
  firmwareOk : Bool
  flashOk : Bool
  deriving Repr

/-- The steps `run` executes, in order, stopping at the first gate that
returns `False`; firmware inspection never fails the session (line 681),
and the post-flash test's result is ignored (line 696). -/
def runSteps (env : SessionEnv) : List Step :=
  if !env.condaOk then [.conda]
  else if !detect_esp32_devices env.device then [.conda, .device]
  else if !env.confirmProceed then [.conda, .device, .inspect, .confirm]
  else if !env.firmwareOk then [.conda, .device, .inspect, .confirm, .selectFw]
  else if !env.flashOk then [.conda, .device, .inspect, .confirm, .selectFw, .flash]
  else [.conda, .device, .inspect, .confirm, .selectFw, .flash, .test]

/-- The boolean `run` returns. -/
def runResult (env : SessionEnv) : Bool :=
  env.condaOk && detect_esp32_devices env.device && env.confirmProceed
    && env.firmwareOk && env.flashOk

/-- How the top-level `try` in `main` ends. -/
inductive SessionTermination where
  | normal (env : SessionEnv)
  | interrupted
  | unexpectedError
  deriving Repr

/-- The process exit code chosen by `main` (lines 715-726): 0 when `run`
returned `True`, 1 when it returned `False`, 0 on `KeyboardInterrupt`, 1
on any other exception. -/
def mainExitCode : SessionTermination → Nat
  | .normal env => if runResult env then 0 else 1
  | .interrupted => 0
  | .unexpectedError => 1

end ESPTool

namespace ESPTool

/-! ### Menu lemmas (C5) -/

theorem menuDown_iterate (n : Nat) (hn : 0 < n) (k : Nat) :
    ∀ i, i < n → (menuDown n)^[k] i = (i + k) % n := by
  induction k with
  | zero =>
    intro i hi
    simp [Nat.mod_eq_of_lt hi]
  | succ k ih =>
    intro i hi
    rw [Function.iterate_succ_apply]
    have h1 : menuDown n i = (i + 1) % n := rfl
    rw [h1, ih ((i + 1) % n) (Nat.mod_lt _ hn), Nat.mod_add_mod]
    congr 1
    omega

/-- C5: navigating down N times from any start index below N returns to the
start index; up from 0 lands on N-1; down from N-1 lands on 0. -/
theorem menu_wrap_invariant (N i : Nat) (hN : 1 ≤ N) (hi : i < N) :
    (menuDown N)^[N] i = i ∧ menuUp N 0 = N - 1 ∧ menuDown N (N - 1) = 0 := by
  refine ⟨?_, ?_, ?_⟩
  · rw [menuDown_iterate N hN N i hi, Nat.add_mod_right, Nat.mod_eq_of_lt hi]
  · show (0 + N - 1) % N = N - 1
    rw [Nat.zero_add]
    exact Nat.mod_eq_of_lt (by omega)
  · show (N - 1 + 1) % N = 0
    have h2 : N - 1 + 1 = N := by omega
    rw [h2]
    exact Nat.mod_self N

/-- Witness for C5 at N = 3, i = 1. -/
theorem menu_wrap_invariant_witness :
    (menuDown 3)^[3] 1 = 1 ∧ menuUp 3 0 = 2 ∧ menuDown 3 2 = 0 :=
  menu_wrap_invariant 3 1 (by decide) (by decide)

/-! ### Index-validity of the menu selector (C9) -/

theorem runRawMenu_selected_lt (N : Nat) (hN : 0 < N) :
    ∀ (inputs : List String) (i : Nat), i < N →
      ∀ r, runRawMenu N i inputs = some (.selected r) → r < N := by
  intro inputs
  induction inputs with
  | nil =>
    intro i hi r h
    simp [runRawMenu] at h
  | cons ch rest ih =>
    intro i hi r h
    rw [runRawMenu] at h
    split_ifs at h
    · exact ih _ (Nat.mod_lt _ hN) r h
    · exact ih _ (Nat.mod_lt _ hN) r h
    · simp only [Option.some.injEq, MenuResult.selected.injEq] at h
      omega
    · simp at h
    · exact ih i hi r h

theorem runFallbackMenu_selected_lt (N : Nat) :
    ∀ (inputs : List LineInput) r,
      runFallbackMenu N inputs = some (.selected r) → r < N := by
  intro inputs
  induction inputs with
  | nil =>
    intro r h
    simp [runFallbackMenu] at h
  | cons inp rest ih =>
    intro r h
    cases inp with
    | interrupt => simp [runFallbackMenu] at h
    | line s =>
      rw [runFallbackMenu] at h
      split_ifs at h with hq
      · simp at h
      · split at h
        · exact ih r h
        · rename_i n hn
          split_ifs at h with hb
          · simp only [Option.some.injEq, MenuResult.selected.injEq] at h
            omega
          · exact ih r h

/-- C9: whenever the menu selector returns rather than exiting, in either
input mode, the returned value is a valid index into the options list; in
fallback mode an accepted integer entry n (with 1 ≤ n ≤ N) returns n - 1. -/
theorem menu_returns_valid_index (N i : Nat) (inputs : List String)
    (linputs lrest : List LineInput) (s : String) (n : Int) (r r' : Nat)
    (hN : 0 < N) (hi : i < N) :
    (runRawMenu N i inputs = some (.selected r) → r < N) ∧
    (runFallbackMenu N linputs = some (.selected r') → r' < N) ∧
    (strLower (strTrim s) ≠ "q" → pyToInt? (strTrim s) = some n →
      1 ≤ n → n ≤ (N : Int) →
      runFallbackMenu N (.line s :: lrest) = some (.selected (n - 1).toNat)) := by
  refine ⟨runRawMenu_selected_lt N hN inputs i hi r,
          runFallbackMenu_selected_lt N linputs r', ?_⟩
  intro hq hint h1 h2
  rw [runFallbackMenu]
  simp only [hint, if_neg hq]
  rw [if_pos (by omega)]

/-- Witness for C9 at N = 2, concrete inputs. -/
theorem menu_returns_valid_index_witness :
    (runRawMenu 2 0 ["\r"] = some (.selected 0) → 0 < 2) ∧
    (runFallbackMenu 2 [.line "2"] = some (.selected 1) → 1 < 2) ∧
    (strLower (strTrim "2") ≠ "q" → pyToInt? (strTrim "2") = some 2 →
      1 ≤ (2 : Int) → (2 : Int) ≤ (2 : Nat) →
      runFallbackMenu 2 (.line "2" :: []) = some (.selected ((2 : Int) - 1).toNat)) :=
  menu_returns_valid_index 2 0 ["\r"] [.line "2"] [] "2" 2 0 1 (by decide) (by decide)

/-! ### Quit behavior (C6) -/

theorem runRawMenu_exited_zero (N : Nat) :
    ∀ (inputs : List String) (i c : Nat),
      runRawMenu N i inputs = some (.exited c) → c = 0 := by
  intro inputs
  induction inputs with
  | nil =>
    intro i c h
    simp [runRawMenu] at h
  | cons ch rest ih =>
    intro i c h
    rw [runRawMenu] at h
    split_ifs at h
    · exact ih _ c h
    · exact ih _ c h
    · simp at h
    · simp only [Option.some.injEq, MenuResult.exited.injEq] at h
      omega
    · exact ih i c h

theorem runFallbackMenu_exited_zero (N : Nat) :
    ∀ (inputs : List LineInput) c,
      runFallbackMenu N inputs = some (.exited c) → c = 0 := by
  intro inputs
  induction inputs with
  | nil =>
    intro c h
    simp [runFallbackMenu] at h
  | cons inp rest ih =>
    intro c h
    cases inp with
    | interrupt =>
      simp only [runFallbackMenu, Option.some.injEq, MenuResult.exited.injEq] at h
      omega
    | line s =>
      rw [runFallbackMenu] at h
      split_ifs at h with hq
      · simp only [Option.some.injEq, MenuResult.exited.injEq] at h
        omega
      · split at h
        · exact ih c h
        · split_ifs at h with hb
          · simp at h
          · exact ih c h

theorem runConfirmRaw_exited_zero :
    ∀ (inputs : List String) (i c : Nat),
      runConfirmRaw i inputs = some (.exited c) → c = 0 := by
  intro inputs
  induction inputs with
  | nil =>
    intro i c h
    simp [runConfirmRaw] at h
  | cons ch rest ih =>
    intro i c h
    rw [runConfirmRaw] at h
    split_ifs at h
    · exact ih _ c h
    · exact ih _ c h
    · simp at h
    · simp at h
    · exact ih _ c h
    · simp only [Option.some.injEq, ConfirmResult.exited.injEq] at h
      omega
    · exact ih i c h

theorem runConfirmFallback_exited_zero :
    ∀ (inputs : List LineInput) c,
      runConfirmFallback inputs = some (.exited c) → c = 0 := by
  intro inputs
  induction inputs with
  | nil =>
    intro c h
    simp [runConfirmFallback] at h
  | cons inp rest ih =>
    intro c h
    cases inp with
    | interrupt =>
      simp only [runConfirmFallback, Option.some.injEq, ConfirmResult.exited.injEq] at h
      omega
    | line s =>
      rw [runConfirmFallback] at h
      split_ifs at h with hq
      · simp only [Option.some.injEq, ConfirmResult.exited.injEq] at h
        omega
      · split at h
        · exact ih c h
        · split_ifs at h with hb hz
          · exact ih c h
          · simp at h
          · simp at h

/-- C6: at every menu prompt — generic menu and confirmation gate, raw and
fallback modes — the quit inputs (the q key, Ctrl-C, the q line, a
keyboard interrupt) terminate with exit status 0, and no prompt ever
produces a process exit with a nonzero status. -/
theorem quit_always_exits_zero (N i j : Nat) (rest : List String)
    (lrest : List LineInput) (inputs : List String) (linputs : List LineInput)
    (c₁ c₂ c₃ c₄ : Nat) :
    runRawMenu N i ("q" :: rest) = some (.exited 0) ∧
    runRawMenu N i ("\x03" :: rest) = some (.exited 0) ∧
    runFallbackMenu N (.line "q" :: lrest) = some (.exited 0) ∧
    runFallbackMenu N (.interrupt :: lrest) = some (.exited 0) ∧
    runConfirmRaw j ("q" :: rest) = some (.exited 0) ∧
    runConfirmRaw j ("\x03" :: rest) = some (.exited 0) ∧
    runConfirmFallback (.line "q" :: lrest) = some (.exited 0) ∧
    runConfirmFallback (.interrupt :: lrest) = some (.exited 0) ∧
    (runRawMenu N i inputs = some (.exited c₁) → c₁ = 0) ∧
    (runFallbackMenu N linputs = some (.exited c₂) → c₂ = 0) ∧
    (runConfirmRaw j inputs = some (.exited c₃) → c₃ = 0) ∧
    (runConfirmFallback linputs = some (.exited c₄) → c₄ = 0) := by
  refine ⟨?_, ?_, ?_, ?_, ?_, ?_, ?_, ?_,
          runRawMenu_exited_zero N inputs i c₁,
          runFallbackMenu_exited_zero N linputs c₂,
          runConfirmRaw_exited_zero inputs j c₃,
          runConfirmFallback_exited_zero linputs c₄⟩
  · rw [runRawMenu, if_neg (by decide), if_neg (by decide), if_neg (by decide),
        if_pos (by decide)]
  · rw [runRawMenu, if_neg (by decide), if_neg (by decide), if_neg (by decide),
        if_pos (by decide)]
  · rw [runFallbackMenu, if_pos (by decide)]
  · rw [runFallbackMenu]
  · rw [runConfirmRaw, if_neg (by decide), if_neg (by decide), if_neg (by decide),
        if_pos (by decide)]
  · rw [runConfirmRaw, if_neg (by decide), if_neg (by decide), if_neg (by decide),
        if_pos (by decide)]
  · rw [runConfirmFallback, if_pos (by decide)]
  · rw [runConfirmFallback]

/-- Witness for C6 at concrete prompts. -/
theorem quit_always_exits_zero_witness :
    runRawMenu 3 0 ("q" :: []) = some (.exited 0) ∧
    runRawMenu 3 0 ("\x03" :: []) = some (.exited 0) ∧
    runFallbackMenu 3 (.line "q" :: []) = some (.exited 0) ∧
    runFallbackMenu 3 (.interrupt :: []) = some (.exited 0) ∧
    runConfirmRaw 0 ("q" :: []) = some (.exited 0) ∧
    runConfirmRaw 0 ("\x03" :: []) = some (.exited 0) ∧
    runConfirmFallback (.line "q" :: []) = some (.exited 0) ∧
    runConfirmFallback (.interrupt :: []) = some (.exited 0) ∧
    (runRawMenu 3 0 ["q"] = some (.exited 1) → 1 = 0) ∧
    (runFallbackMenu 3 [.interrupt] = some (.exited 1) → 1 = 0) ∧
    (runConfirmRaw 0 ["q"] = some (.exited 1) → 1 = 0) ∧
    (runConfirmFallback [.interrupt] = some (.exited 1) → 1 = 0) :=
  quit_always_exits_zero 3 0 0 [] [] ["q"] [.interrupt] 1 1 1 1

/-! ### Session exit code on decline (C1) -/

/-- A session in which every step would succeed but the user picks the
keep-existing option at the confirmation gate. -/
def declineEnv : SessionEnv :=
  { condaOk := true,
    device := { anyAccepted := true, sel := .manual "/dev/ttyUSB0" "esp32" },
    transport := .ok "MicroPython v1.26.1 on 2025-09-11; ESP32 module",
    confirmProceed := false, firmwareOk := true, flashOk := true }

/-- C1 counterexample: pressing the down arrow and Enter at the gate
selects the keep-existing option, the gate returns the declining value,
and the process then exits with the failure status 1, not 0. -/
theorem decline_exits_with_failure_status :
    runConfirmRaw 0 ["\x1b[B", "\r"] = some ConfirmResult.keep ∧
    mainExitCode (.normal declineEnv) = 1 ∧
    mainExitCode (.normal declineEnv) ≠ 0 := by decide

/-- C1 amended: when the user declines at the overwrite-confirmation gate,
`run` returns the failure value and the process exits with status 1 —
the same failure status as any fatal step — not with the neutral status 0. -/
theorem decline_exit_code (env : SessionEnv) (h : env.confirmProceed = false) :
    mainExitCode (.normal env) = 1 := by
  simp [mainExitCode, runResult, h]

/-- Witness for the amended C1 at the concrete declining session. -/
theorem decline_exit_code_witness : mainExitCode (.normal declineEnv) = 1 :=
  decline_exit_code declineEnv rfl

/-! ### Inspection failure is soft (C7) -/

theorem strContains_append_right (p e : String) :
    strContains (p ++ e) e = true := by
  unfold strContains
  rw [String.data_append]
  exact decide_eq_true (List.suffix_append p.data e.data).isInfix

/-- C7: a transport failure during inspection yields a descriptor whose
version reads Detection failed and whose raw transcript contains the error
text, and the session still reaches the confirmation gate. -/
theorem detect_failure_soft (e : String) (env : SessionEnv)
    (h1 : env.condaOk = true) (h2 : detect_esp32_devices env.device = true)
    (h3 : env.transport = .error e) :
    (detect_current_firmware env.transport).version = "Detection failed" ∧
    strContains (detect_current_firmware env.transport).raw_output e = true ∧
    Step.confirm ∈ runSteps env := by
  refine ⟨by rw [h3]; rfl, ?_, ?_⟩
  · rw [h3]
    exact strContains_append_right "Error: " e
  · unfold runSteps
    rw [h1, h2]
    simp only [Bool.not_true, Bool.false_eq_true, if_false]
    split_ifs <;> simp

/-- A session whose serial open fails with a concrete error. -/
def serialErrorEnv : SessionEnv :=
  { condaOk := true,
    device := { anyAccepted := true, sel := .manual "/dev/ttyUSB0" "esp32" },
    transport := .error "could not open port /dev/ttyUSB0",
    confirmProceed := false, firmwareOk := false, flashOk := false }

/-- Witness for C7 at the concrete serial-failure session. -/
theorem detect_failure_soft_witness :
    (detect_current_firmware serialErrorEnv.transport).version = "Detection failed" ∧
    strContains (detect_current_firmware serialErrorEnv.transport).raw_output
      "could not open port /dev/ttyUSB0" = true ∧
    Step.confirm ∈ runSteps serialErrorEnv :=
  detect_failure_soft "could not open port /dev/ttyUSB0" serialErrorEnv rfl (by decide) rfl

/-! ### Variant invariant before firmware selection (C8, C10) -/

theorem runSteps_of_detect_false (env : SessionEnv)
    (hd : detect_esp32_devices env.device = false) :
    runSteps env = [.conda] ∨ runSteps env = [.conda, .device] := by
  unfold runSteps
  rw [hd]
  cases hc : env.condaOk <;> simp

/-- C8: any session that reaches the firmware-selection step has a device
model in the supported set, and an unsupported selected model (possible
via manual entry) makes the device step fail so that firmware selection
is never reached. -/
theorem variant_supported_before_selection (env : SessionEnv) :
    (Step.selectFw ∈ runSteps env → device_model_of env.device.sel ∈ supported_models) ∧
    (device_model_supported env.device.sel = false → Step.selectFw ∉ runSteps env) := by
  constructor
  · intro h
    by_cases hd : detect_esp32_devices env.device = true
    · unfold detect_esp32_devices at hd
      rw [Bool.and_eq_true] at hd
      have hcontains : supported_models.elem (device_model_of env.device.sel) = true := hd.2
      exact List.mem_of_elem_eq_true hcontains
    · have hd2 : detect_esp32_devices env.device = false := by
        cases hval : detect_esp32_devices env.device
        · rfl
        · exact absurd hval hd
      rcases runSteps_of_detect_false env hd2 with h1 | h1 <;> rw [h1] at h <;> simp at h
  · intro hsup hmem
    have hd2 : detect_esp32_devices env.device = false := by
      unfold detect_esp32_devices
      rw [hsup, Bool.and_false]
    rcases runSteps_of_detect_false env hd2 with h1 | h1 <;> rw [h1] at hmem <;> simp at hmem

/-- A session whose device was entered manually with an unsupported tag. -/
def unsupportedEnv : SessionEnv :=
  { condaOk := true,
    device := { anyAccepted := true, sel := .manual "/dev/ttyUSB0" "ESP8266" },
    transport := .ok "", confirmProceed := true, firmwareOk := true, flashOk := true }

/-- Witness for C8: the manually entered ESP8266 tag halts the workflow
before firmware selection. -/
theorem variant_supported_before_selection_witness :
    Step.selectFw ∉ runSteps unsupportedEnv :=
  (variant_supported_before_selection unsupportedEnv).2 (by decide)

theorem strContains_trans (hay mid needle : String)
    (h1 : strContains hay mid = true) (h2 : strContains mid needle = true) :
    strContains hay needle = true := by
  unfold strContains at h1 h2 ⊢
  rw [decide_eq_true_eq] at h1 h2 ⊢
  exact h2.trans h1

theorem classify_model_part_mem (mp : String) :
    classify_model_part mp ∈ supported_models := by
  unfold classify_model_part
  split_ifs <;> simp [supported_models]

/-- C10: every automatically probed device is classified into the
supported variant set — chip-id output with no recognized variant
substring is labelled as the unknown variant, which the selection step
classifies as the generic esp32 — so the unsupported-variant halt is
reachable only through manual entry. -/
theorem auto_probe_always_supported (label port output : String) :
    device_model_of (.auto label) ∈ supported_models ∧
    device_model_supported (.auto label) = true ∧
    (strContains (strLower output) "esp32" = false →
      probe_label port output = port ++ " (ESP32 - Unknown variant)") := by
  refine ⟨classify_model_part_mem _, ?_, ?_⟩
  · unfold device_model_supported
    exact List.elem_eq_true_of_mem (classify_model_part_mem _)
  · intro h
    have hc : ∀ needle : String, strContains needle "esp32" = true →
        strContains (strLower output) needle = false := by
      intro needle hn
      by_cases hcon : strContains (strLower output) needle = true
      · exfalso
        have ht := strContains_trans (strLower output) needle "esp32" hcon hn
        rw [h] at ht
        exact Bool.false_ne_true ht
      · cases hval : strContains (strLower output) needle
        · rfl
        · exact absurd hval hcon
    unfold probe_label
    simp only [hc "esp32-c3" (by decide), hc "esp32c3" (by decide),
        hc "esp32-s3" (by decide), hc "esp32s3" (by decide),
        hc "esp32-c6" (by decide), hc "esp32c6" (by decide), h]
    simp

/-- Witness for C10: an unknown-variant label classifies as esp32, and
unrecognizable chip-id output gets the unknown-variant label. -/
theorem auto_probe_always_supported_witness :
    device_model_of (.auto "/dev/ttyUSB0 (ESP32 - Unknown variant)") ∈ supported_models ∧
    probe_label "/dev/ttyUSB0" "no chip info here" =
      "/dev/ttyUSB0 (ESP32 - Unknown variant)" :=
  ⟨(auto_probe_always_supported "/dev/ttyUSB0 (ESP32 - Unknown variant)" "p" "o").1,
   (auto_probe_always_supported "lbl" "/dev/ttyUSB0" "no chip info here").2.2 (by decide)⟩

/-! ### Flash retry (C2) -/

/-- C2 evaluation: the retry invocation replaces `flash_cmd[4]` — the
port argument — with 115200 while the baud argument at index 6 stays
460800; the step succeeds iff erase succeeds and one of the two write
attempts succeeds; the retry timeout is longer than the first. -/
theorem flash_retry_sets_port_not_baud (m p f : String) (e w r : Bool) :
    flash_cmd_retry m p f =
      ["esptool", "--chip", m, "--port", "115200", "--baud", "460800",
       "write-flash", "-z", "0x0", f] ∧
    (flash_cmd_retry m p f).getD 6 "" = "460800" ∧
    (flash_cmd_retry m p f).getD 4 "" = "115200" ∧
    flash_micropython e w r = (e && (w || r)) ∧
    flash_first_timeout < flash_retry_timeout := by
  refine ⟨rfl, rfl, rfl, ?_, by decide⟩
  cases e <;> cases w <;> cases r <;> rfl

/-! ### Catalog recovery (C3) -/

theorem firmware_options_length (model : String) :
    (firmware_options model).length = 4 := by
  unfold firmware_options firmware_option_names
  split_ifs <;> rfl

/-- A catalog run where the user picked the first release entry, both
download attempts fail, and a previously downloaded variant-prefixed file
sits in the working directory. -/
def bothDownloadsFailEnv : CatalogEnv :=
  { selection := 0, localBinFiles := [], localFileChoice := 0,
    primaryDownloadOk := false, altDownloadOk := false,
    variantPrefixedFiles := ["esp32c3_backup.bin"], unexpectedException := false }

/-- C3 counterexample: with both locators failing and a matching
variant-prefixed file present in the working directory, the step still
fails — the last-recovery search is not reached from the download-failure
path. -/
theorem both_locators_fail_skips_recovery :
    get_firmware_versions "esp32c3" bothDownloadsFailEnv = .fail ∧
    bothDownloadsFailEnv.variantPrefixedFiles = ["esp32c3_backup.bin"] ∧
    bothDownloadsFailEnv.primaryDownloadOk = false ∧
    bothDownloadsFailEnv.altDownloadOk = false := by decide

/-- C3 amended: when both download locators fail, the step fails
immediately without consulting the working directory; the variant-prefixed
recovery runs only when an unexpected exception escapes the resolution
body, and then it uses the first matching file when one exists. -/
theorem catalog_download_failure_amended (model : String) (env : CatalogEnv)
    (hsel : env.selection < 3)
    (hp : env.primaryDownloadOk = false) (ha : env.altDownloadOk = false)
    (hx : env.unexpectedException = false) :
    get_firmware_versions model env = .fail ∧
    (env.variantPrefixedFiles ≠ [] →
      get_firmware_versions model { env with unexpectedException := true } =
        .ok (env.variantPrefixedFiles.headD "")) := by
  constructor
  · unfold get_firmware_versions
    rw [hx]
    simp only [Bool.false_eq_true, if_false]
    unfold catalogBody
    rw [firmware_options_length, if_neg (by omega), hp, ha]
    simp
  · intro hne
    unfold get_firmware_versions catalogRecovery
    cases hv : env.variantPrefixedFiles with
    | nil => exact absurd hv hne
    | cons f fs => simp [hv]

/-- Witness for the amended C3 at the concrete failing catalog run. -/
theorem catalog_download_failure_amended_witness :
    get_firmware_versions "esp32c3" bothDownloadsFailEnv = .fail ∧
    get_firmware_versions "esp32c3"
      { bothDownloadsFailEnv with unexpectedException := true } =
        .ok "esp32c3_backup.bin" :=
  ⟨(catalog_download_failure_amended "esp32c3" bothDownloadsFailEnv
      (by decide) rfl rfl rfl).1,
   (catalog_download_failure_amended "esp32c3" bothDownloadsFailEnv
      (by decide) rfl rfl rfl).2 (by decide)⟩

/-! ### Inspection transcript example (C4) -/

/-- The spec's example inspection transcript. -/
def exampleTranscript : String := "MicroPython v1.26.1 on esp32c3"

/-- C4 counterexample: on the example transcript the version field is the
placeholder Unknown — the extraction requires a line containing both the
micropython and version substrings, and this line has no version
substring. -/
theorem example_transcript_version_unknown :
    (parse_firmware exampleTranscript).version = "Unknown" := by decide

/-- C4 amended: the example transcript is classified as MicroPython
(is_micropython = true) but its version field remains the placeholder
Unknown, and the raw transcript is kept verbatim. -/
theorem example_transcript_parse :
    (parse_firmware exampleTranscript).is_micropython = true ∧
    (parse_firmware exampleTranscript).version = "Unknown" ∧
    (parse_firmware exampleTranscript).raw_output = exampleTranscript := by decide

end ESPTool
